import Mathlib

/-!
Verification of the USBUART core relay engine (hutorny/usbuart) against its
natural-language specification.  The C++ sources are shallowly embedded:
machine integers become `Nat`/`Int` with explicit truncation where the source
can overflow, fallible paths return `Except error_t` or `Option`, and the
per-channel mutable state of `file_channel` becomes an explicit record that
the event-handling functions transform.
-/

namespace Usbuart

/-- Error codes of the library (usbuart.h, `enum class error_t`), in
declaration order so that the numeric code of each constructor matches the
C++ enumerator value. -/
inductive error_t where
  | success
  | no_channels
  | not_implemented
  | invalid_param
  | no_channel
  | no_access
  | not_supported
  | no_device
  | no_interface
  | interface_busy
  | libusb_error
  | usb_error
  | device_error
  | bad_baudrate
  | probe_mismatch
  | control_error
  | io_error
  | fcntl_error
  | poll_error
  | pipe_error
  | out_of_memory
  | jni_error
  | unknown_error
  deriving DecidableEq

/-- Numeric value of an `error_t` enumerator (C++ enum values start at 0). -/
def error_t.code : error_t → Nat
  | .success => 0
  | .no_channels => 1
  | .not_implemented => 2
  | .invalid_param => 3
  | .no_channel => 4
  | .no_access => 5
  | .not_supported => 6
  | .no_device => 7
  | .no_interface => 8
  | .interface_busy => 9
  | .libusb_error => 10
  | .usb_error => 11
  | .device_error => 12
  | .bad_baudrate => 13
  | .probe_mismatch => 14
  | .control_error => 15
  | .io_error => 16
  | .fcntl_error => 17
  | .poll_error => 18
  | .pipe_error => 19
  | .out_of_memory => 20
  | .jni_error => 21
  | .unknown_error => 22

/-- `safe()` in core.cpp catches a thrown `error_t` and returns `-err`
(the unary `operator-` of usbuart.h). -/
def errorReturn (e : error_t) : Int := - (e.code : Int)

/-! ## errno constants (Linux) used by core.cpp -/

def EINTR : Int := 4
def EAGAIN : Int := 11
def EACCES : Int := 13
def EBUSY : Int := 16
def EINVAL : Int := 22

/-- `throw_error` in core.cpp: maps an errno-style code to a thrown
`error_t`, or returns without throwing (`none`) for the benign
`EAGAIN`/`EINTR` cases.  The source first takes `err < 0 ? -err : err`. -/
def throw_error (err : Int) : Option error_t :=
  let e := if err < 0 then -err else err
  if e = EAGAIN ∨ e = EINTR then none
  else if e = EBUSY then some .interface_busy
  else if e = EACCES then some .no_access
  else some .io_error

/-- The failure branch of `context::backend::poll_events` (core.cpp): when
`poll(2)` returned `polled < 0`, the source runs
`if( polled == EINVAL ) throw error_t::poll_error; throw_error(__, errno);`.
Note that the source compares the *return value* `polled` with `EINVAL`,
not `errno`. -/
def poll_events_fail (polled : Int) (errnoVal : Int) : Option error_t :=
  if polled = EINVAL then some .poll_error
  else throw_error errnoVal

/-! ## FTDI driver (ftdi.cpp) -/

namespace ftdi

def high_clk : Nat := 120 * 1000 * 1000
def low_clk : Nat := 48 * 1000 * 1000

/-- `(1<<break_interrupt)|(1<<framing_error)|(1<<parity_error)|(1<<overrun_error)`
with the `status_bit` enum of ftdi.cpp (overrun=1, parity=2, framing=3,
break=4). -/
def error_mask : Nat := (1 <<< 4) ||| (1 <<< 3) ||| (1 <<< 2) ||| (1 <<< 1)

/-- The 8-entry sub-integer prescaler table `mapper` of
`ftdi::compute_divisors`. -/
def mapper : List Nat :=
  [0x0000, 0xC000, 0x8000, 0x0100, 0x4000, 0x4100, 0x8100, 0xC100]

/-- `low_limit = (high_clk / 10) >> 14` (a compile-time constant, 732). -/
def low_limit : Nat := (high_clk / 10) >>> 14

/-- `ftdi::compute_divisors`: returns the pair `(value, index)` computed for
a baud rate.  All source operands are 32-bit unsigned; the intermediate
values stay below `2^32` for every baud rate (the largest is
`(120e6<<3)/1 + 7 < 2^30`), so plain `Nat` arithmetic is exact. -/
def compute_divisors (isH : Bool) (baudrate : Nat) : Nat × Nat :=
  let clk := if isH then high_clk else low_clk
  let prescaler := if isH ∧ low_limit < baudrate then 10 else 16
  let divisor := ((clk <<< 3) / baudrate + (prescaler >>> 1) - 1) / prescaler
  let index := (mapper.getD (divisor &&& 7) 0 &&& 0x0100)
               ||| (if prescaler = 10 then 0x0200 else 0)
  let value := ((divisor >>> 3) &&& 0x3FFF)
               ||| (mapper.getD (divisor &&& 7) 0 &&& 0xC000)
  (value, index)

/-- `ftdi::setbaudrate`: the triple of arguments
`(request, wValue, wIndex)` passed to `write_cv`
(`set_baudrate_req = 0x03`, `value`, `index | ifcnum`). -/
def setbaudrate (isH : Bool) (ifcnum : Nat) (baudrate : Nat) : Nat × Nat × Nat :=
  let vi := compute_divisors isH baudrate
  (0x03, vi.1, vi.2 ||| ifcnum)

/-- Modelled from the claim: the prescaler selection rule as the claim
words it (10 exactly when high-speed and the rate exceeds
`(high_clk/10)/2^14`). -/
def claimPrescaler (isH : Bool) (baudrate : Nat) : Nat :=
  if isH ∧ high_clk / 10 / 2 ^ 14 < baudrate then 10 else 16

/-- Modelled from the claim: `divisor = (clk·8/baud)/prescaler` exactly as
the claim (and the spec) word it, without the rounding addend
`+ prescaler/2 - 1` that the source applies before the division. -/
def claimDivisorUnrounded (isH : Bool) (baudrate : Nat) : Nat :=
  ((if isH then high_clk else low_clk) * 8 / baudrate) / claimPrescaler isH baudrate

/-- The divisor the source actually computes, written with `*` and `/`
instead of shifts: `(clk·8/baud + prescaler/2 − 1) / prescaler`. -/
def amendedDivisor (isH : Bool) (baudrate : Nat) : Nat :=
  ((if isH then high_clk else low_clk) * 8 / baudrate
    + claimPrescaler isH baudrate / 2 - 1) / claimPrescaler isH baudrate

/-- The claim's `value` formula, applied to a given divisor. -/
def claimValue (d : Nat) : Nat :=
  ((d >>> 3) &&& 0x3FFF) ||| (mapper.getD (d &&& 7) 0 &&& 0xC000)

/-- The claim's `index` formula (before the interface number is OR-ed in),
applied to a given divisor. -/
def claimIndex (isH : Bool) (baudrate : Nat) (d : Nat) : Nat :=
  (mapper.getD (d &&& 7) 0 &&& 0x0100)
    ||| (if claimPrescaler isH baudrate = 10 then 0x0200 else 0)

/-- Supported FTDI product ids (`table` in `ftdi::factory::create`). -/
def products : List Nat := [0x6001, 0x6010, 0x6011, 0x6014, 0x6015]

/-- The high-speed detection of `ftdi::factory::create`: for a product id
outside the table, `bcdDevice ∈ {0x0700, 0x0800, 0x0900}`; for a listed
product, `high_speed = {0x6010, 0x6011, 0x6014}` with the extra
`bcdDevice == 0x0700` requirement on 0x6010. -/
def detect_ish (idProduct bcdDevice : Nat) : Bool :=
  let found := products.contains idProduct
  if found then
    (idProduct == 0x6010 && bcdDevice == 0x0700)
      || idProduct == 0x6011 || idProduct == 0x6014
  else
    bcdDevice == 0x0700 || bcdDevice == 0x0800 || bcdDevice == 0x0900

/-- The observable fields of a constructed `ftdi` driver instance: the
interface number passed to `generic` and the stored high-speed flag. -/
structure Inst where
  ifcnum : Nat
  isH : Bool
  deriving DecidableEq

/-- The constructor call `new ftdi(handle, ish, num)` of
`ftdi::factory::create`, matched against the declared constructor
`ftdi(libusb_device_handle* d, uint8_t num, bool ish)`: the second caller
argument (the bool `ish`) is implicitly converted to `uint8_t` and becomes
the interface number, and the third (the `uint8_t num`) is converted to
`bool` and becomes the high-speed flag. -/
def construct (ishArg : Bool) (numArg : Nat) : Inst :=
  { ifcnum := if ishArg then 1 else 0, isH := numArg != 0 }

/-- `ftdi::factory::create` (ftdi.cpp): interface index limit 4
(`countof(h_ifcs)`) checked before the descriptor is read, vendor gate
0x0403 (returning null to let the registry try other factories),
high-speed detection, the `!ish && num` guard, then construction.
`.error e` models `throw e`; `.ok none` models returning `nullptr`. -/
def factory_create (idVendor idProduct bcdDevice num : Nat) :
    Except error_t (Option Inst) :=
  if 4 ≤ num then .error .invalid_param
  else if idVendor ≠ 0x0403 then .ok none
  else
    let ish := detect_ish idProduct bcdDevice
    if ish = false ∧ num ≠ 0 then .error .invalid_param
    else .ok (some (construct ish num))

end ftdi

/-! ## CH34x driver (ch34x.cpp) -/

namespace ch34x

/-- The hard-coded `baudtable` of `ch34x::setbaudrate`:
`(baud, div1, div2)` rows. -/
def table : List (Nat × Nat × Nat) :=
  [ (2400, 0xd901, 0x0038)
  , (4800, 0x6402, 0x001f)
  , (9600, 0xb202, 0x0013)
  , (19200, 0xd902, 0x000d)
  , (38400, 0x6403, 0x000a)
  , (57600, 0x9803, 0x0010)
  , (115200, 0xcc03, 0x0008) ]

/-- The lookup loop of `ch34x::setbaudrate`: on the first matching row it
issues `write_cv(0x9a, 0x1312, div1); write_cv(0x9a, 0x0f2c, div2)` and
returns; falling off the table throws `bad_baudrate`.  The result is the
list of `(request, wValue, wIndex)` control writes issued. -/
def setbaudrateLoop : List (Nat × Nat × Nat) → Nat → Except error_t (List (Nat × Nat × Nat))
  | [], _ => .error .bad_baudrate
  | e :: rest, baudrate =>
      if e.1 = baudrate then .ok [(0x9a, 0x1312, e.2.1), (0x9a, 0x0f2c, e.2.2)]
      else setbaudrateLoop rest baudrate

/-- `ch34x::setbaudrate`. -/
def setbaudrate (baudrate : Nat) : Except error_t (List (Nat × Nat × Nat)) :=
  setbaudrateLoop table baudrate

/-- The rates the spec lists as supported. -/
def listedRates : List Nat := [2400, 4800, 9600, 19200, 38400, 57600, 115200]

/-- Divisor words per listed rate, for stating the claim. -/
def divisors (baudrate : Nat) : Nat × Nat :=
  if baudrate = 2400 then (0xd901, 0x0038)
  else if baudrate = 4800 then (0x6402, 0x001f)
  else if baudrate = 9600 then (0xb202, 0x0013)
  else if baudrate = 19200 then (0xd902, 0x000d)
  else if baudrate = 38400 then (0x6403, 0x000a)
  else if baudrate = 57600 then (0x9803, 0x0010)
  else if baudrate = 115200 then (0xcc03, 0x0008)
  else (0, 0)

end ch34x

/-! ## file_channel (core.cpp)

`usbuart::size_t` is `uint16_t` (usbuart.hpp), so `readpos[]` and the
`size` locals are 16-bit; `actual_length` is a C `int` that libusb keeps
in `[0, length]`.  `u16` truncates an `int`-valued expression to
`uint16_t` as the source's implicit conversions do. -/

def u16 (x : Int) : Nat := (x % 65536).toNat

/-- The per-IN-transfer state a `file_channel` keeps for `readxfer[i]`:
`readpos[i]`, the transfer's `actual_length`, and `readxfer_busy[i]`. -/
structure Xfer where
  readpos : Nat
  actual_length : Nat
  busy : Bool
  deriving DecidableEq

/-- The `file_channel` state touched by the read-side paths: the two IN
transfers, `current` (`false` = `readxfer0`), the FTDI driver's
`errors` accumulator, and the hangup flags. -/
structure Chan where
  x0 : Xfer
  x1 : Xfer
  cur : Bool
  errors : Nat
  pipein_hangup : Bool
  pipeout_hangup : Bool
  device_hangup : Bool
  deriving DecidableEq

/-- `readxfer[i]` selection; `i = true` plays the role of
`readxfer == readxfer1`. -/
def Chan.xfer (c : Chan) (i : Bool) : Xfer := cond i c.x1 c.x0

def Chan.setXfer (c : Chan) (i : Bool) (x : Xfer) : Chan :=
  cond i { c with x1 := x } { c with x0 := x }

/-- The state right after `file_channel::init` succeeded: both IN
transfers submitted (`busy`), `readpos = {0,0}`, buffers and
`actual_length` zeroed (`libusb_alloc_transfer` calloc-initialises the
transfer), `current = readxfer0`, no hangups.  The FTDI `errors` member is
never initialised by the source; 0 models a zeroed allocation. -/
def Chan.init : Chan :=
  { x0 := ⟨0, 0, true⟩, x1 := ⟨0, 0, true⟩, cur := false, errors := 0
  , pipein_hangup := false, pipeout_hangup := false, device_hangup := false }

/-- `file_channel::status` (core.cpp): the OR of the three ok-bits
(`read_pipe_ok=1`, `write_pipe_ok=2`, `usb_dev_ok=4`) gated by the
respective hangup flags.  No other bits are contributed. -/
def Chan.status (c : Chan) : Nat :=
  (if c.pipein_hangup then 0 else 1)
    ||| (if c.pipeout_hangup then 0 else 2)
    ||| (if c.device_hangup then 0 else 4)

/-- `file_channel::getreadbuff`: refuses a busy transfer (null buffer,
size 0), otherwise yields the payload window as
`(buffer offset, size) = (readpos, actual_length - readpos)`, the
subtraction performed in `int` and stored into a `uint16_t`. -/
def Chan.getreadbuff (c : Chan) (i : Bool) : Nat × Nat :=
  let x := c.xfer i
  if x.busy then (0, 0)
  else (x.readpos, u16 ((x.actual_length : Int) - (x.readpos : Int)))

/-- `file_channel::consumed`: refuses a busy transfer; otherwise advances
`readpos[i]` by `size` (16-bit), and once `readpos ≥ actual_length`
resubmits the transfer (`busy := submitOk`, the result of
`submit_transfer`) and swaps `current` to the other IN transfer.  Returns
the state and the source's boolean result. -/
def Chan.consumed (c : Chan) (i : Bool) (size : Nat) (submitOk : Bool) : Chan × Bool :=
  let x := c.xfer i
  if x.busy then (c, false)
  else
    let pos := (x.readpos + size) % 65536
    if x.actual_length ≤ pos then
      ({ c.setXfer i { x with readpos := pos, busy := submitOk } with cur := !i }, true)
    else (c.setXfer i { x with readpos := pos }, false)

/-- `ftdi::read_callback` (ftdi.cpp): a transfer shorter than 2 bytes is
malformed — `actual_length` is zeroed and `readpos` left untouched;
otherwise `readpos := 2` and the masked status byte `buffer[1]` is OR-ed
into `errors` when non-zero.  Arguments `(actual_length, buffer[1],
readpos, errors)`; result `(actual_length, readpos, errors)`. -/
def ftdi_read_callback (actual_length b1 pos errors : Nat) : Nat × Nat × Nat :=
  if actual_length < 2 then (0, pos, errors)
  else
    let err := b1 &&& ftdi.error_mask
    (actual_length, 2, if err ≠ 0 then errors ||| err else errors)

/-- `file_channel::read_callback` for a completed IN transfer on the FTDI
driver: libusb has set `actual_length := n`; the driver callback runs;
then, unless `pipeout_hangup`, the transfer is resubmitted when
`readpos ≥ actual_length` (no payload; `busy := submitOk`) or handed to
`writepipe` otherwise (`busy := false`).  The second component is the
`(offset, size)` window `writepipe` passes to `write(2)` — `none` when no
write is attempted. -/
def Chan.read_completion (c : Chan) (i : Bool) (n b1 : Nat) (submitOk : Bool) :
    Chan × Option (Nat × Nat) :=
  let r := ftdi_read_callback n b1 (c.xfer i).readpos c.errors
  let c1 := { c.setXfer i { c.xfer i with actual_length := r.1, readpos := r.2.1 }
              with errors := r.2.2 }
  if c1.pipeout_hangup then (c1, none)
  else if (c1.xfer i).actual_length ≤ (c1.xfer i).readpos then
    (c1.setXfer i { c1.xfer i with busy := submitOk }, none)
  else
    let c2 := c1.setXfer i { c1.xfer i with busy := false }
    (c2, some (c2.getreadbuff i))

/-- The bytes `write(2)` is asked to deliver, given the transfer buffer
contents and the window chosen by `read_completion`. -/
def payloadBytes (buf : List Nat) (region : Option (Nat × Nat)) : List Nat :=
  match region with
  | none => []
  | some (off, len) => (buf.drop off).take len

/-- The spec's per-transfer invariant `readpos[i] ≤ actual_length[i] ≤
chunk_size`. -/
def XferInv (x : Xfer) (chunk : Nat) : Prop :=
  x.readpos ≤ x.actual_length ∧ x.actual_length ≤ chunk

/-- The invariant the code actually maintains: `actual_length` stays
bounded, and `readpos ≤ actual_length` can only fail on a transfer whose
last completion was malformed and zeroed `actual_length`. -/
def XferWeakInv (x : Xfer) (chunk : Nat) : Prop :=
  x.actual_length ≤ chunk ∧ (x.readpos ≤ x.actual_length ∨ x.actual_length = 0)
    ∧ x.readpos ≤ chunk

instance (x : Xfer) (chunk : Nat) : Decidable (XferInv x chunk) := by
  unfold XferInv; infer_instance

instance (x : Xfer) (chunk : Nat) : Decidable (XferWeakInv x chunk) := by
  unfold XferWeakInv; infer_instance

/-! ## pipe_channel (core.cpp) -/

/-- `pipe_channel::bipipe`: given the descriptor pairs returned by the two
`::pipe` calls (`a` = engine-reads, `b` = engine-writes), the channel the
engine keeps is `(fd_read, fd_write) = (a[0], b[1])` and the caller's
channel is written as `(ex.fd_read, ex.fd_write) = (b[0], b[1])` — note
the source assigns `b[1]`, not `a[1]`, to `ex.fd_write`. -/
def bipipe (a b : Nat × Nat) : (Nat × Nat) × (Nat × Nat) :=
  ((a.1, b.2), (b.1, b.2))

/-- `pipe_channel::~pipe_channel`: the descriptors closed, in source
order `close(exrd); close(fdrw); close(fdrd); close(exrw)`. -/
def pipe_channel_closes (engineCh callerCh : Nat × Nat) : List Nat :=
  [callerCh.1, engineCh.2, engineCh.1, callerCh.2]

/-- A concrete channel state used to instantiate hypotheses: transfer 0
mid-drain (`readpos = 2`, `actual_length = 64`, not in flight), transfer 1
in flight. -/
def sampleChan : Chan :=
  { x0 := ⟨2, 64, false⟩, x1 := ⟨0, 0, true⟩, cur := false, errors := 0
  , pipein_hangup := false, pipeout_hangup := false, device_hangup := false }

/-! ## Helper lemmas -/

@[simp]
theorem xfer_setXfer (c : Chan) (i : Bool) (x : Xfer) :
    (c.setXfer i x).xfer i = x := by
  cases i <;> simp [Chan.xfer, Chan.setXfer]

@[simp]
theorem cur_setXfer (c : Chan) (i : Bool) (x : Xfer) :
    (c.setXfer i x).cur = c.cur := by
  cases i <;> simp [Chan.setXfer]

@[simp]
theorem pipeout_setXfer (c : Chan) (i : Bool) (x : Xfer) :
    (c.setXfer i x).pipeout_hangup = c.pipeout_hangup := by
  cases i <;> simp [Chan.setXfer]

@[simp]
theorem errors_setXfer (c : Chan) (i : Bool) (x : Xfer) :
    (c.setXfer i x).errors = c.errors := by
  cases i <;> simp [Chan.setXfer]

@[simp]
theorem xfer_withCur (c : Chan) (b : Bool) (i : Bool) :
    Chan.xfer { c with cur := b } i = c.xfer i := by
  cases i <;> simp [Chan.xfer]

@[simp]
theorem xfer_withErrors (c : Chan) (e : Nat) (i : Bool) :
    Chan.xfer { c with errors := e } i = c.xfer i := by
  cases i <;> simp [Chan.xfer]

theorem u16_sub_eq (a b : Nat) (hle : b ≤ a) (hlt : a - b < 65536) :
    u16 ((a : Int) - (b : Int)) = a - b := by
  unfold u16
  omega

@[simp]
theorem pipeout_withErrors (c : Chan) (e : Nat) :
    ({ c with errors := e } : Chan).pipeout_hangup = c.pipeout_hangup := rfl

@[simp]
theorem cur_withErrors (c : Chan) (e : Nat) :
    ({ c with errors := e } : Chan).cur = c.cur := rfl

/-- How `consumed` transforms the per-transfer state it addresses. -/
theorem consumed_xfer (c : Chan) (i : Bool) (k : Nat) (s : Bool) :
    (c.consumed i k s).1.xfer i =
      (if (c.xfer i).busy then c.xfer i
       else if (c.xfer i).actual_length ≤ ((c.xfer i).readpos + k) % 65536 then
         { c.xfer i with readpos := ((c.xfer i).readpos + k) % 65536, busy := s }
       else { c.xfer i with readpos := ((c.xfer i).readpos + k) % 65536 }) := by
  cases i <;>
  · unfold Chan.consumed Chan.xfer Chan.setXfer
    dsimp only [Bool.cond_false, Bool.cond_true]
    split_ifs <;> rfl

/-- How a read completion transforms the per-transfer state it
addresses. -/
theorem read_completion_xfer (c : Chan) (i : Bool) (n b1 : Nat) (s : Bool) :
    (c.read_completion i n b1 s).1.xfer i =
      (if n < 2 then
        (if c.pipeout_hangup then { c.xfer i with actual_length := 0 }
         else { c.xfer i with actual_length := 0, busy := s })
       else
        (if c.pipeout_hangup then
           { c.xfer i with actual_length := n, readpos := 2 }
         else if n ≤ 2 then
           { c.xfer i with actual_length := n, readpos := 2, busy := s }
         else
           { c.xfer i with actual_length := n, readpos := 2, busy := false })) := by
  cases i <;>
  · unfold Chan.read_completion ftdi_read_callback Chan.xfer Chan.setXfer
    dsimp only [Bool.cond_false, Bool.cond_true]
    split_ifs <;> first | rfl | (exfalso; omega)

/-! ## Claim theorems -/

/-- Claim C7 (code bug): when `poll(2)` fails with errno `EINVAL` the
source never reaches `error_t::poll_error` — it compares the return value
`polled` (which is `-1` on failure) with `EINVAL` (22), so the errno falls
through `throw_error` to `io_error` and `loop()` returns `-io_error`
(-16), not `-poll_error` (-18).  The `EINTR`/`EAGAIN` part of the claim
does hold: `throw_error` returns without throwing. -/
theorem poll_einval_bug :
    poll_events_fail (-1) EINVAL = some error_t.io_error ∧
    error_t.io_error ≠ error_t.poll_error ∧
    errorReturn error_t.io_error = -16 ∧
    errorReturn error_t.poll_error = -18 ∧
    poll_events_fail (-1) EINTR = none ∧
    poll_events_fail (-1) EAGAIN = none := by
  refine ⟨rfl, by decide, rfl, rfl, rfl, rfl⟩

/-- Claim C9 (code bug): `ftdi::factory::create` calls
`new ftdi(handle, ish, num)` against the declared constructor
`ftdi(d, uint8_t num, bool ish)`, so the two arguments are swapped via
implicit conversions.  For a device Vid 0x0403, Pid 0x6014 (detected
high-speed regardless of bcdDevice) and requested interface 0, the
constructed driver has interface number 1 and high-speed flag `false`,
where the claim requires interface number 0 and flag `true`. -/
theorem ftdi_ctor_swap_bug :
    ftdi.detect_ish 0x6014 0x0900 = true ∧
    ftdi.factory_create 0x0403 0x6014 0x0900 0 =
      .ok (some { ifcnum := 1, isH := false }) ∧
    ({ ifcnum := 1, isH := false } : ftdi.Inst) ≠ { ifcnum := 0, isH := true } := by
  refine ⟨rfl, rfl, by decide⟩

/-- Claim C6 (code bug): with the two `::pipe` calls returning
`a = {3,4}` and `b = {5,6}`, `pipe_channel::bipipe` hands the caller
`(b[0], b[1]) = (5, 6)` — the write end the caller receives is the
engine's own write end `b[1]`, not `a[1] = 4` — and the destructor closes
descriptor 6 twice while never closing 4. -/
theorem pipe_channel_fd_bug :
    bipipe (3, 4) (5, 6) = ((3, 6), (5, 6)) ∧
    (bipipe (3, 4) (5, 6)).2.2 ≠ 4 ∧
    pipe_channel_closes (bipipe (3, 4) (5, 6)).1 (bipipe (3, 4) (5, 6)).2
      = [5, 6, 3, 6] ∧
    4 ∉ pipe_channel_closes (bipipe (3, 4) (5, 6)).1 (bipipe (3, 4) (5, 6)).2 ∧
    (pipe_channel_closes (bipipe (3, 4) (5, 6)).1 (bipipe (3, 4) (5, 6)).2).count 6
      = 2 := by
  refine ⟨rfl, by decide, rfl, by decide, rfl⟩

/-- Claim C3 counterexample: the invariant `readpos ≤ actual_length ≤
chunk_size` is not preserved by a read completion.  A transfer fully
drained in the previous cycle (`readpos = actual_length = 64`, resubmitted
and in flight) that completes with a malformed 1-byte transfer has its
`actual_length` zeroed by `ftdi::read_callback` while `readpos` keeps its
old value 64, so `readpos ≤ actual_length` fails afterwards. -/
theorem readpos_invariant_counterexample :
    let c : Chan := { x0 := ⟨64, 64, true⟩, x1 := ⟨0, 0, true⟩, cur := false
                    , errors := 0, pipein_hangup := false
                    , pipeout_hangup := false, device_hangup := false }
    XferInv (c.xfer false) 64 ∧
    ¬ XferInv ((c.read_completion false 1 0 true).1.xfer false) 64 := by
  decide

/-- Claim C4 counterexample: after a read completion that accumulates the
FTDI framing-error bit (status byte `buffer[1] = 8`), the channel's
`errors` member holds 8 but `file_channel::status` still returns plain 7 —
the driver-reported line-error bits are never OR-ed into the status
result, contradicting the claim. -/
theorem status_errors_counterexample :
    (Chan.init.read_completion false 64 8 true).1.errors = 8 ∧
    Chan.status (Chan.init.read_completion false 64 8 true).1 = 7 ∧
    Chan.status (Chan.init.read_completion false 64 8 true).1 ≠
      Chan.status (Chan.init.read_completion false 64 8 true).1 |||
        (Chan.init.read_completion false 64 8 true).1.errors := by
  refine ⟨rfl, rfl, by decide⟩

/-- Claim C5 counterexample: at baud rate 13 on a low-speed part the
divisor the claim prescribes, `(clk·8/baud)/prescaler = 1846153`, differs
from the source's rounded `(clk·8/baud + prescaler/2 − 1)/prescaler =
1846154`, and the resulting `value` words differ (0x8571 vs 0xC571). -/
theorem divisor_formula_counterexample :
    ftdi.claimDivisorUnrounded false 13 = 1846153 ∧
    (ftdi.compute_divisors false 13).1 = 34161 ∧
    ftdi.claimValue (ftdi.claimDivisorUnrounded false 13) = 50545 ∧
    (ftdi.compute_divisors false 13).1 ≠
      ftdi.claimValue (ftdi.claimDivisorUnrounded false 13) := by
  refine ⟨rfl, rfl, rfl, by decide⟩

/-- Claim C1 (confirmed): on a completed FTDI bulk IN transfer of `n ≤ 64`
bytes with `n ≥ 2`, the driver callback sets the payload offset to 2 and
the bytes handed to `write(2)` are exactly the transfer's bytes from
offset 2 on — the 2-byte status header is never delivered; when `n < 2`,
`actual_length` is zeroed, no write is attempted, and zero payload bytes
are delivered. -/
theorem ftdi_status_strip (c : Chan) (i s : Bool) (n b1 : Nat) (buf : List Nat)
    (hpo : c.pipeout_hangup = false) (hn64 : n ≤ 64) :
    (n < 2 →
      ((c.read_completion i n b1 s).1.xfer i).actual_length = 0 ∧
      (c.read_completion i n b1 s).2 = none ∧
      payloadBytes buf (c.read_completion i n b1 s).2 = []) ∧
    (2 ≤ n →
      ((c.read_completion i n b1 s).1.xfer i).readpos = 2 ∧
      ((c.read_completion i n b1 s).1.xfer i).actual_length = n ∧
      payloadBytes buf (c.read_completion i n b1 s).2 = (buf.take n).drop 2) := by
  have hnil : (buf.take 2).drop 2 = [] := by
    apply List.drop_eq_nil_of_le
    simp
  cases i <;>
  · constructor
    · intro hn
      simp [Chan.read_completion, ftdi_read_callback, Chan.xfer, Chan.setXfer,
        hn, hpo, payloadBytes]
    · intro hn
      have hlt : ¬ n < 2 := by omega
      by_cases h2 : n = 2
      · subst h2
        simp [Chan.read_completion, ftdi_read_callback, Chan.xfer,
          Chan.setXfer, hpo, payloadBytes, hnil]
      · have hcond : ¬ n ≤ 2 := by omega
        have hu : u16 ((n : Int) - 2) = n - 2 := by
          unfold u16; omega
        simp [Chan.read_completion, ftdi_read_callback, Chan.xfer,
          Chan.setXfer, hlt, hpo, hcond, payloadBytes, Chan.getreadbuff, hu,
          List.drop_take]

/-- Witness for `ftdi_status_strip` at a concrete input: a live channel,
a 10-byte completed transfer. -/
theorem ftdi_status_strip_witness :
    (Chan.init.pipeout_hangup = false ∧ (10 : Nat) ≤ 64) ∧
    ((10 < 2 →
      ((Chan.init.read_completion false 10 1 false).1.xfer false).actual_length = 0 ∧
      (Chan.init.read_completion false 10 1 false).2 = none ∧
      payloadBytes [0, 1, 2, 3, 4, 5, 6, 7, 8, 9]
        (Chan.init.read_completion false 10 1 false).2 = []) ∧
    (2 ≤ 10 →
      ((Chan.init.read_completion false 10 1 false).1.xfer false).readpos = 2 ∧
      ((Chan.init.read_completion false 10 1 false).1.xfer false).actual_length = 10 ∧
      payloadBytes [0, 1, 2, 3, 4, 5, 6, 7, 8, 9]
        (Chan.init.read_completion false 10 1 false).2 =
        (([0, 1, 2, 3, 4, 5, 6, 7, 8, 9] : List Nat).take 10).drop 2)) :=
  ⟨⟨rfl, by decide⟩,
   ftdi_status_strip Chan.init false false 10 1 [0, 1, 2, 3, 4, 5, 6, 7, 8, 9]
     rfl (by decide)⟩

/-- Claim C2 (confirmed): for an idle IN transfer holding
`n = actual_length − readpos` payload bytes, `consumed` with a write
result `k ≤ n` advances `readpos` by exactly `k`; the transfer is
resubmitted (and `consumed` returns true, swapping `current` to the other
IN transfer) exactly when `k = n`; and for `k < n` the next
`getreadbuff` on the same transfer starts at byte offset `k` past the
previous attempt with the remaining `n − k` bytes. -/
theorem partial_write_resubmission (c : Chan) (i s : Bool) (k : Nat)
    (hbusy : (c.xfer i).busy = false)
    (hrp : (c.xfer i).readpos ≤ (c.xfer i).actual_length)
    (hal : (c.xfer i).actual_length ≤ 64)
    (hk : k ≤ (c.xfer i).actual_length - (c.xfer i).readpos) :
    ((c.consumed i k s).1.xfer i).readpos = (c.xfer i).readpos + k ∧
    ((c.consumed i k s).2 = true ↔
      (c.xfer i).actual_length - (c.xfer i).readpos = k) ∧
    ((c.consumed i k s).1.xfer i).busy =
      (if (c.xfer i).actual_length - (c.xfer i).readpos = k then s else false) ∧
    ((c.consumed i k s).1.cur =
      if (c.xfer i).actual_length - (c.xfer i).readpos = k then !i else c.cur) ∧
    (k < (c.xfer i).actual_length - (c.xfer i).readpos →
      (c.consumed i k s).1.getreadbuff i =
        ((c.xfer i).readpos + k,
         (c.xfer i).actual_length - (c.xfer i).readpos - k)) := by
  cases i
  case false =>
    simp only [Chan.xfer, Bool.cond_false] at hbusy hrp hal hk ⊢
    have hmod : (c.x0.readpos + k) % 65536 = c.x0.readpos + k :=
      Nat.mod_eq_of_lt (by omega)
    by_cases hfull : c.x0.actual_length - c.x0.readpos = k
    · have hcond : c.x0.actual_length ≤ c.x0.readpos + k := by omega
      simp [Chan.consumed, Chan.xfer, Chan.setXfer, hbusy, hmod, hcond, hfull]
    · have hcond : ¬ c.x0.actual_length ≤ c.x0.readpos + k := by omega
      have hu : u16 ((c.x0.actual_length : Int) - ((c.x0.readpos : Int) + (k : Int))) =
          c.x0.actual_length - c.x0.readpos - k := by
        unfold u16; omega
      simp [Chan.consumed, Chan.xfer, Chan.setXfer, Chan.getreadbuff, hbusy,
        hmod, hcond, hfull, hu]
  case true =>
    simp only [Chan.xfer, Bool.cond_true] at hbusy hrp hal hk ⊢
    have hmod : (c.x1.readpos + k) % 65536 = c.x1.readpos + k :=
      Nat.mod_eq_of_lt (by omega)
    by_cases hfull : c.x1.actual_length - c.x1.readpos = k
    · have hcond : c.x1.actual_length ≤ c.x1.readpos + k := by omega
      simp [Chan.consumed, Chan.xfer, Chan.setXfer, hbusy, hmod, hcond, hfull]
    · have hcond : ¬ c.x1.actual_length ≤ c.x1.readpos + k := by omega
      have hu : u16 ((c.x1.actual_length : Int) - ((c.x1.readpos : Int) + (k : Int))) =
          c.x1.actual_length - c.x1.readpos - k := by
        unfold u16; omega
      simp [Chan.consumed, Chan.xfer, Chan.setXfer, Chan.getreadbuff, hbusy,
        hmod, hcond, hfull, hu]

/-- Witness for `partial_write_resubmission`: transfer 0 of `sampleChan`
holds 62 payload bytes and 10 of them are written. -/
theorem partial_write_resubmission_witness :
    ((sampleChan.xfer false).busy = false ∧
     (sampleChan.xfer false).readpos ≤ (sampleChan.xfer false).actual_length ∧
     (sampleChan.xfer false).actual_length ≤ 64 ∧
     10 ≤ (sampleChan.xfer false).actual_length - (sampleChan.xfer false).readpos) ∧
    (((sampleChan.consumed false 10 true).1.xfer false).readpos =
      (sampleChan.xfer false).readpos + 10 ∧
    ((sampleChan.consumed false 10 true).2 = true ↔
      (sampleChan.xfer false).actual_length - (sampleChan.xfer false).readpos = 10) ∧
    ((sampleChan.consumed false 10 true).1.xfer false).busy =
      (if (sampleChan.xfer false).actual_length - (sampleChan.xfer false).readpos = 10
       then true else false) ∧
    ((sampleChan.consumed false 10 true).1.cur =
      if (sampleChan.xfer false).actual_length - (sampleChan.xfer false).readpos = 10
      then !false else sampleChan.cur) ∧
    (10 < (sampleChan.xfer false).actual_length - (sampleChan.xfer false).readpos →
      (sampleChan.consumed false 10 true).1.getreadbuff false =
        ((sampleChan.xfer false).readpos + 10,
         (sampleChan.xfer false).actual_length - (sampleChan.xfer false).readpos - 10))) :=
  ⟨⟨rfl, by decide, by decide, by decide⟩,
   partial_write_resubmission sampleChan false true 10 rfl (by decide) (by decide)
     (by decide)⟩

/-- Claim C3 (corrected, amended): for a transfer satisfying
`readpos ≤ actual_length ≤ chunk_size (= 64)`, a pipe write of
`k ≤ actual_length − readpos` bytes preserves the full invariant, and a
read completion of `n ≤ 64` bytes re-establishes it whenever `n ≥ 2`; a
malformed completion (`n < 2`) zeroes `actual_length` without resetting
`readpos`, so only the weakened invariant
`actual_length ≤ chunk ∧ (readpos ≤ actual_length ∨ actual_length = 0) ∧
readpos ≤ chunk` survives it. -/
theorem readpos_invariant_amended (c : Chan) (i s : Bool) (k n b1 : Nat)
    (hinv : XferInv (c.xfer i) 64)
    (hk : k ≤ (c.xfer i).actual_length - (c.xfer i).readpos)
    (hn : n ≤ 64) :
    XferInv ((c.consumed i k s).1.xfer i) 64 ∧
    XferWeakInv ((c.read_completion i n b1 s).1.xfer i) 64 ∧
    (2 ≤ n → XferInv ((c.read_completion i n b1 s).1.xfer i) 64) := by
  obtain ⟨h1, h2⟩ := hinv
  refine ⟨?_, ?_, ?_⟩
  · rw [consumed_xfer]
    unfold XferInv
    split_ifs <;> (try simp) <;> omega
  · rw [read_completion_xfer]
    unfold XferWeakInv
    split_ifs <;> (try simp) <;> omega
  · intro h2n
    rw [read_completion_xfer]
    unfold XferInv
    split_ifs <;> (try simp) <;> omega

/-- Witness for `readpos_invariant_amended`: transfer 0 of `sampleChan`
with a 10-byte pipe write and a 64-byte completion. -/
theorem readpos_invariant_amended_witness :
    (XferInv (sampleChan.xfer false) 64 ∧
     10 ≤ (sampleChan.xfer false).actual_length - (sampleChan.xfer false).readpos ∧
     (64 : Nat) ≤ 64) ∧
    (XferInv ((sampleChan.consumed false 10 true).1.xfer false) 64 ∧
     XferWeakInv ((sampleChan.read_completion false 64 1 true).1.xfer false) 64 ∧
     (2 ≤ 64 → XferInv ((sampleChan.read_completion false 64 1 true).1.xfer false) 64)) :=
  ⟨⟨by decide, by decide, by decide⟩,
   readpos_invariant_amended sampleChan false true 10 64 1 (by decide) (by decide)
     (by decide)⟩

/-- Claim C4 (corrected, amended): `file_channel::status` returns exactly
the OR of `read_pipe_ok` (bit 0, set iff `¬pipein_hangup`),
`write_pipe_ok` (bit 1, iff `¬pipeout_hangup`) and `usb_dev_ok` (bit 2,
iff `¬device_hangup`); the driver-accumulated line-error bits are *not*
included — the result never exceeds 7 and is independent of the `errors`
member. -/
theorem status_bits_amended (c : Chan) (e : Nat) :
    ((Chan.status c).testBit 0 = ! c.pipein_hangup) ∧
    ((Chan.status c).testBit 1 = ! c.pipeout_hangup) ∧
    ((Chan.status c).testBit 2 = ! c.device_hangup) ∧
    Chan.status c < 8 ∧
    Chan.status { c with errors := e } = Chan.status c := by
  obtain ⟨x0, x1, cur, er, pi, po, dh⟩ := c
  cases pi <;> cases po <;> cases dh <;> simp [Chan.status] <;> decide

/-- Claim C5 (corrected, amended): `ftdi::compute_divisors` selects
prescaler 10 exactly when the part is high-speed and the rate exceeds
`(high_clk/10)/2^14` (so baud 1 selects 16), and with the *rounded*
divisor `(clk·8/baud + prescaler/2 − 1)/prescaler` produces
`value = ((divisor>>3) & 0x3FFF) | (table[divisor&7] & 0xC000)` and
`index = (table[divisor&7] & 0x0100) | (0x0200 if prescaler = 10)`, with
the interface number OR-ed into `index` by `setbaudrate`. -/
theorem ftdi_divisor_amended (isH : Bool) (ifcnum baudrate : Nat)
    (h : 0 < baudrate) :
    (ftdi.compute_divisors isH baudrate).1 =
      ftdi.claimValue (ftdi.amendedDivisor isH baudrate) ∧
    (ftdi.compute_divisors isH baudrate).2 =
      ftdi.claimIndex isH baudrate (ftdi.amendedDivisor isH baudrate) ∧
    (ftdi.claimPrescaler isH baudrate = 10 ↔
      (isH = true ∧ ftdi.high_clk / 10 / 2 ^ 14 < baudrate)) ∧
    ftdi.claimPrescaler isH 1 = 16 ∧
    ftdi.setbaudrate isH ifcnum baudrate =
      (0x03, ftdi.claimValue (ftdi.amendedDivisor isH baudrate),
       ftdi.claimIndex isH baudrate (ftdi.amendedDivisor isH baudrate) ||| ifcnum) := by
  have hll : ftdi.high_clk / 10 / 2 ^ 14 = ftdi.low_limit := by decide
  have hpre : ftdi.claimPrescaler isH baudrate =
      (if isH ∧ ftdi.low_limit < baudrate then 10 else 16) := by
    simp only [ftdi.claimPrescaler]
    rw [hll]
  have hdiv : ftdi.amendedDivisor isH baudrate =
      (((if isH then ftdi.high_clk else ftdi.low_clk) <<< 3) / baudrate
        + ((if isH ∧ ftdi.low_limit < baudrate then 10 else 16) >>> 1) - 1)
        / (if isH ∧ ftdi.low_limit < baudrate then 10 else 16) := by
    simp only [ftdi.amendedDivisor]
    rw [hpre]
    split_ifs <;> norm_num [Nat.shiftLeft_eq, Nat.shiftRight_eq_div_pow]
  have hval : (ftdi.compute_divisors isH baudrate).1 =
      ftdi.claimValue (ftdi.amendedDivisor isH baudrate) := by
    simp only [ftdi.claimValue]
    rw [hdiv]
    rfl
  have hidx : (ftdi.compute_divisors isH baudrate).2 =
      ftdi.claimIndex isH baudrate (ftdi.amendedDivisor isH baudrate) := by
    simp only [ftdi.claimIndex]
    rw [hdiv, hpre]
    rfl
  refine ⟨hval, hidx, ?_, ?_, ?_⟩
  · rw [hpre, hll]
    split_ifs with hc <;> simp [hc]
  · norm_num [ftdi.claimPrescaler, ftdi.high_clk]
  · simp only [ftdi.setbaudrate]
    rw [hval, hidx]

/-- Witness for `ftdi_divisor_amended` at baud 115200 on a high-speed
part with interface number 1. -/
theorem ftdi_divisor_amended_witness :
    0 < (115200 : Nat) ∧
    ((ftdi.compute_divisors true 115200).1 =
      ftdi.claimValue (ftdi.amendedDivisor true 115200) ∧
    (ftdi.compute_divisors true 115200).2 =
      ftdi.claimIndex true 115200 (ftdi.amendedDivisor true 115200) ∧
    (ftdi.claimPrescaler true 115200 = 10 ↔
      (true = true ∧ ftdi.high_clk / 10 / 2 ^ 14 < 115200)) ∧
    ftdi.claimPrescaler true 1 = 16 ∧
    ftdi.setbaudrate true 1 115200 =
      (0x03, ftdi.claimValue (ftdi.amendedDivisor true 115200),
       ftdi.claimIndex true 115200 (ftdi.amendedDivisor true 115200) ||| 1)) :=
  ⟨by decide, ftdi_divisor_amended true 1 115200 (by decide)⟩

/-- Claim C8 (confirmed): `ch34x::setbaudrate` issues the paired
request-0x9a control writes carrying the rate's two divisor words exactly
when the rate is listed in the hard-coded table {2400, 4800, 9600, 19200,
38400, 57600, 115200}; any other rate throws `bad_baudrate` (surfaced by
`safe()` as −13) and issues no control writes. -/
theorem ch34x_baud_table (baudrate : Nat) :
    ch34x.setbaudrate baudrate =
      (if baudrate ∈ ch34x.listedRates then
        .ok [(0x9a, 0x1312, (ch34x.divisors baudrate).1),
             (0x9a, 0x0f2c, (ch34x.divisors baudrate).2)]
       else .error .bad_baudrate) ∧
    errorReturn error_t.bad_baudrate = -13 := by
  refine ⟨?_, rfl⟩
  by_cases h1 : baudrate = 2400
  · subst h1; rfl
  by_cases h2 : baudrate = 4800
  · subst h2; rfl
  by_cases h3 : baudrate = 9600
  · subst h3; rfl
  by_cases h4 : baudrate = 19200
  · subst h4; rfl
  by_cases h5 : baudrate = 38400
  · subst h5; rfl
  by_cases h6 : baudrate = 57600
  · subst h6; rfl
  by_cases h7 : baudrate = 115200
  · subst h7; rfl
  simp [ch34x.setbaudrate, ch34x.table, ch34x.setbaudrateLoop,
    ch34x.listedRates, h1, h2, h3, h4, h5, h6, h7,
    Ne.symm h1, Ne.symm h2, Ne.symm h3, Ne.symm h4, Ne.symm h5,
    Ne.symm h6, Ne.symm h7]

/-- Claim C10 (confirmed): `ftdi::factory::create` throws `invalid_param`
(surfaced by `attach` as −3) whenever the requested interface index is 4
or more — a check performed before the vendor test, hence for any device
reaching the factory — and whenever, on an FTDI-vendor device, the index
is non-zero but the device was not detected as high-speed. -/
theorem ftdi_invalid_param (idVendor idProduct bcdDevice num : Nat)
    (h : 4 ≤ num ∨ (idVendor = 0x0403 ∧ num ≠ 0 ∧
      ftdi.detect_ish idProduct bcdDevice = false)) :
    ftdi.factory_create idVendor idProduct bcdDevice num =
      .error .invalid_param ∧
    errorReturn error_t.invalid_param = -3 := by
  refine ⟨?_, rfl⟩
  rcases h with h4 | ⟨hv, hnz, hish⟩
  · unfold ftdi.factory_create
    rw [if_pos h4]
  · subst hv
    by_cases h4 : 4 ≤ num
    · unfold ftdi.factory_create
      rw [if_pos h4]
    · simp [ftdi.factory_create, h4, hish, hnz]

/-- Witness for `ftdi_invalid_param`: any device with requested interface
index 5. -/
theorem ftdi_invalid_param_witness :
    ((4 : Nat) ≤ 5 ∨ ((0 : Nat) = 0x0403 ∧ (5 : Nat) ≠ 0 ∧
      ftdi.detect_ish 0 0 = false)) ∧
    (ftdi.factory_create 0 0 0 5 = .error .invalid_param ∧
     errorReturn error_t.invalid_param = -3) :=
  ⟨Or.inl (by decide), ftdi_invalid_param 0 0 0 5 (Or.inl (by decide))⟩

end Usbuart
